import Mathlib

/-!
Verification of the scoring orchestration engine of the model-scoring
repository.  The Python sources under `src/` are shallowly embedded:
pure string/number computations become Lean functions on `List Char`,
`String`, `ℚ` and `ℝ`; network fetches (`fetch_readme`, `get_model_info`,
the contributor scrape and the judgment-oracle call) become fields of an
explicit `Env` record returning `Option`-values, mirroring the fact that
every network call site in the source catches its own exceptions and
degrades to `None`/default.  Python `re` searches are embedded through a
small Brzozowski-derivative regular-expression engine; each Python
pattern is compiled to a term of the `RE` type next to its source text.
Python `set` objects are embedded as duplicate-free `List String` with
`setAdd`; every use in the source is an order-independent existence scan
or an `add`, so the list order is irrelevant to all results.
-/

/-! ### Basic string utilities (Python `str` operations) -/

/-- Python whitespace class `\s` over ASCII: space, tab, newline, CR, FF, VT. -/
def isPySpace (c : Char) : Bool :=
  c == ' ' || c == '\t' || c == '\n' || c == '\r' || c == '\x0b' || c == '\x0c'

/-- Word character for the regex `\b` boundary: `[a-zA-Z0-9_]`. -/
def isWordChar (c : Char) : Bool :=
  c.isAlphanum || c == '_'

/-- Does the first list occur at the very start of the second one? -/
def startsWithList : List Char → List Char → Bool
  | [], _ => true
  | _ :: _, [] => false
  | a :: as, b :: bs => a == b && startsWithList as bs

/-- Does the first list occur contiguously anywhere inside the second one? -/
def hasSubList (n : List Char) : List Char → Bool
  | [] => startsWithList n []
  | c :: cs => startsWithList n (c :: cs) || hasSubList n cs

/-- Python `needle in hay` on strings (substring containment). -/
def strContains (hay needle : String) : Bool :=
  hasSubList needle.toList hay.toList

/-- Python `str.lower()` (ASCII range, which covers all inputs involved). -/
def strLower (s : String) : String :=
  String.mk (s.toList.map Char.toLower)

/-- Strip the given character from both ends (Python `str.strip("/")`). -/
def pyStripChar (c : Char) (s : List Char) : List Char :=
  ((s.dropWhile (· == c)).reverse.dropWhile (· == c)).reverse

/-- Strip whitespace from both ends of a char list (Python `str.strip()`). -/
def pyStripList (s : List Char) : List Char :=
  ((s.dropWhile isPySpace).reverse.dropWhile isPySpace).reverse

/-- Strip whitespace from both ends (Python `str.strip()`). -/
def pyStrip (s : String) : String :=
  String.mk (pyStripList s.toList)

/-- Python `hay.split(sep)` worker: `cur` is the reversed current segment.
The fuel argument is initialised to the input length; every step consumes
at least one character, so the fuel never runs out on the initial call. -/
def splitOnGo (sep : List Char) : Nat → List Char → List Char →
    List (List Char)
  | 0, cur, cs => [cur.reverse ++ cs]
  | _ + 1, cur, [] => [cur.reverse]
  | fuel + 1, cur, c :: cs' =>
    if sep ≠ [] && startsWithList sep (c :: cs') then
      cur.reverse :: splitOnGo sep fuel [] (List.drop (sep.length - 1) cs')
    else
      splitOnGo sep fuel (c :: cur) cs'

/-- Python `hay.split(sep)` for a non-empty separator. -/
def splitOnList (sep cs : List Char) : List (List Char) :=
  splitOnGo sep cs.length [] cs

/-- Everything after the first occurrence of (non-empty) `sep`, if any. -/
def afterFirst (sep : List Char) : List Char → Option (List Char)
  | [] => none
  | c :: cs =>
    if startsWithList sep (c :: cs) then
      some (List.drop sep.length (c :: cs))
    else
      afterFirst sep cs

/-- Python `str.replace(pat, repl)` on char lists (non-overlapping, left to
right); the empty pattern never occurs in the embedded code.  Fuel is
initialised to the input length; every step consumes at least one char. -/
def replaceAllGo (pat repl : List Char) : Nat → List Char → List Char
  | 0, cs => cs
  | _ + 1, [] => []
  | fuel + 1, c :: cs =>
    if pat ≠ [] && startsWithList pat (c :: cs) then
      repl ++ replaceAllGo pat repl fuel (List.drop (pat.length - 1) cs)
    else
      c :: replaceAllGo pat repl fuel cs

/-- Python `str.replace` on strings. -/
def replaceAll (pat repl s : String) : String :=
  String.mk (replaceAllGo pat.toList repl.toList s.toList.length s.toList)

/-- Python `str.split()` (split on whitespace runs, dropping empties);
fuel is initialised to the input length, as above. -/
def splitWsGo : Nat → List Char → List (List Char)
  | 0, _ => []
  | _ + 1, [] => []
  | fuel + 1, c :: cs =>
    if isPySpace c then splitWsGo fuel cs
    else
      let tok := (c :: cs).takeWhile (fun d => !isPySpace d)
      tok :: splitWsGo fuel ((c :: cs).drop tok.length)

/-- Python `str.split()` on a char list. -/
def splitWsTokens (cs : List Char) : List (List Char) :=
  splitWsGo cs.length cs

/-! ### A Brzozowski-derivative regular-expression engine

Each Python `re` pattern used by the sources is compiled to an `RE` term.
`reSearch` implements `re.search`'s boolean outcome: does a match start at
any position?  Greedy/lazy distinctions are irrelevant for this boolean. -/

inductive RE where
  | emp : RE
  | eps : RE
  | cls : (Char → Bool) → RE
  | seq : RE → RE → RE
  | alt : RE → RE → RE
  | star : RE → RE

/-- Does the regex accept the empty string? -/
def RE.nullable : RE → Bool
  | .emp => false
  | .eps => true
  | .cls _ => false
  | .seq a b => a.nullable && b.nullable
  | .alt a b => a.nullable || b.nullable
  | .star _ => true

/-- Brzozowski derivative with respect to one character. -/
def RE.deriv : RE → Char → RE
  | .emp, _ => .emp
  | .eps, _ => .emp
  | .cls p, c => if p c then .eps else .emp
  | .seq a b, c =>
    if a.nullable then .alt (.seq (a.deriv c) b) (b.deriv c)
    else .seq (a.deriv c) b
  | .alt a b, c => .alt (a.deriv c) (b.deriv c)
  | .star a, c => .seq (a.deriv c) (.star a)

/-- Does some (possibly empty) initial segment of the input match `r`? -/
def reMatchInit (r : RE) : List Char → Bool
  | [] => r.nullable
  | c :: cs => r.nullable || reMatchInit (r.deriv c) cs

/-- Boolean outcome of Python `re.search(r, s)`: a match starts somewhere. -/
def reSearch (r : RE) : List Char → Bool
  | [] => r.nullable
  | c :: cs => reMatchInit r (c :: cs) || reSearch r cs

/-- Literal string regex. -/
def reStr (s : String) : RE :=
  s.toList.foldr (fun c r => RE.seq (RE.cls (· == c)) r) RE.eps

/-- Alternation of a list of regexes. -/
def reAlts (rs : List RE) : RE :=
  rs.foldr RE.alt RE.emp

/-- Optional regex (`r?`). -/
def reOpt (r : RE) : RE := RE.alt r RE.eps

/-- One-or-more repetition (`r+`). -/
def rePlus (r : RE) : RE := RE.seq r (RE.star r)

/-- Single-character regexes used by the compiled patterns. -/
def reChar (c : Char) : RE := RE.cls (· == c)

/-- Regex class `\d`. -/
def reDigit : RE := RE.cls Char.isDigit

/-- Regex class `\s`. -/
def reSpace : RE := RE.cls isPySpace

/-- Regex class `[^\s]`. -/
def reNotSpace : RE := RE.cls (fun c => !isPySpace c)

/-- Regex `.` (any character except newline; DOTALL is never used). -/
def reDot : RE := RE.cls (fun c => c != '\n')

/-- Regex class `[a-zA-Z]`. -/
def reAlpha : RE := RE.cls Char.isAlpha

/-- Word-bounded occurrence check, compiling patterns of the shape `\bw\b`
where `w` begins and ends with word characters (all such patterns in the
source do): `w` occurs with no word character adjacent on either side.
`wbMatchHere` checks `w` as a prefix followed by a non-word character or
the end of input. -/
def wbMatchHere : List Char → List Char → Bool
  | [], [] => true
  | [], c :: _ => !isWordChar c
  | _ :: _, [] => false
  | a :: as, b :: bs => a == b && wbMatchHere as bs

/-- Scan for a word-bounded occurrence; `prev` is the preceding character. -/
def searchWBFrom (w : List Char) (prev : Option Char) : List Char → Bool
  | [] => false
  | c :: cs =>
    ((match prev with
      | none => true
      | some p => !isWordChar p) && wbMatchHere w (c :: cs))
      || searchWBFrom w (some c) cs

/-- Boolean outcome of `re.search(r"\bw\b", hay)` for word-made `w`. -/
def searchWordBounded (w : String) (hay : List Char) : Bool :=
  searchWBFrom w.toList none hay

/-- Boolean outcome of `re.search(w + r"\b", hay)` (end boundary only),
compiling the `\.py\b`-style patterns. -/
def searchStrEndBounded (w : String) : List Char → Bool
  | [] => false
  | c :: cs => wbMatchHere w.toList (c :: cs) || searchStrEndBounded w cs

/-! ### The network boundary

Each network call site in the source catches its own exceptions and
degrades to `None` / `0`; the `Env` record hands those outcomes to the
embedded functions explicitly. -/

/-- Fields of the JSON returned by `get_model_info` that the scorers read
via `info.get("downloads", 0)` and `info.get("likes", 0)` (the `.get`
default 0 is baked into the field). -/
structure ModelInfo where
  downloads : ℤ
  likes : ℤ

/-- The external world: `readme` models `fetch_readme` (`none` = fetch
failed, caught in the source and turned into `None`); `modelInfo` models
`get_model_info` (`none` = failure); `contributors` models
`get_huggingface_contributors` (which returns 0 on failure or when no
positive count is scraped); `oracle` models `PurdueGenAI().chat` applied
to the prompt built from (readme text, model id, aspect) — the client
lives outside `src/`, so per the spec the judgment oracle is an external
capability returning a response or failing (`none`). -/
structure Env where
  readme : String → Option String
  modelInfo : String → Option ModelInfo
  contributors : String → ℕ
  oracle : String → String → String → Option String

/-! ### `license_sub_score.py` -/

/-- Source lines 12-16: allow-list of licenses compatible with LGPL v2.1.
A Python `set` literal; embedded as a list — it is only consulted through
an order-independent `any` scan. -/
def COMPATIBLE_LICENSES : List String :=
  ["gpl-2.0", "gpl-3.0", "lgpl-2.1", "artistic-2.0", "mit", "bsl-1.0",
   "bsd-3-clause", "cc0-1.0", "cc-by-4.0", "wtfpl", "isc", "ncsa",
   "unlicense", "zlib"]

/-- Case-insensitive prefix test (the pattern is given lowercased). -/
def ciStartsWith : List Char → List Char → Bool
  | [], _ => true
  | _ :: _, [] => false
  | p :: ps, c :: cs => p == c.toLower && ciStartsWith ps cs

/-- Tail `\s*([^\n]+)` of the YAML-front-matter regex of `extract_license`,
with the greedy backtracking of `re`: skip the maximal whitespace run,
capture the rest of the line if anything follows; if the whitespace run
reaches the end of input, backtrack to the last non-newline whitespace
character (the capture needs at least one non-newline character). -/
def licenseValueAfter (cs : List Char) : Option (List Char) :=
  let ws := cs.takeWhile isPySpace
  let rest := cs.drop ws.length
  if rest ≠ [] then some (rest.takeWhile (· != '\n'))
  else
    match (ws.filter (fun c => c != '\n')).getLast? with
    | some c => some [c]
    | none => none

/-- Lazy `[\s\S]*?license:` step of the front-matter regex: find the first
case-insensitive `license:` from here on and capture its value; on a
failed capture the lazy quantifier moves on to the next occurrence. -/
def findLicenseFrom : List Char → Option (List Char)
  | [] => none
  | c :: cs =>
    if ciStartsWith ("license:".toList) (c :: cs) then
      match licenseValueAfter (List.drop 8 (c :: cs)) with
      | some v => some v
      | none => findLicenseFrom cs
    else findLicenseFrom cs

/-- Compiled from `re.search(r"^---[\s\S]*?license:\s*([^\n]+)", readme,
re.IGNORECASE | re.MULTILINE)` (source lines 42-45): the leftmost
line-start occurrence of `---` from which a later `license:` value can be
captured wins; `atLineStart` tracks the MULTILINE `^`. -/
def extractLicenseYaml (atLineStart : Bool) : List Char → Option (List Char)
  | [] => none
  | c :: cs =>
    if atLineStart && startsWithList ("---".toList) (c :: cs) then
      match findLicenseFrom (List.drop 3 (c :: cs)) with
      | some v => some v
      | none => extractLicenseYaml (c == '\n') cs
    else extractLicenseYaml (c == '\n') cs

/-- Worker for `str.splitlines` (newline-only inputs occur here). -/
def splitNlAux (cur : List Char) : List Char → List (List Char)
  | [] => if cur = [] then [] else [cur.reverse]
  | c :: cs =>
    if c == '\n' then cur.reverse :: splitNlAux [] cs
    else splitNlAux (c :: cur) cs

/-- Python `str.splitlines()` restricted to `\n` separators: splits on
newlines and drops the empty segment a trailing newline would create. -/
def splitNl : List Char → List (List Char)
  | [] => []
  | c :: cs => splitNlAux [] (c :: cs)

/-- Compiled from `re.match(r"^#+\s*License\s*$", line.strip(),
re.IGNORECASE)` (source line 50). -/
def isLicenseHeading (line : List Char) : Bool :=
  let l := pyStripList line
  let hashes := l.takeWhile (· == '#')
  let rest2 := (l.drop hashes.length).dropWhile isPySpace
  hashes ≠ [] && ciStartsWith ("license".toList) rest2 &&
    (rest2.drop 7).all isPySpace

/-- First following line with non-blank content, stripped and lowered
(source lines 51-53). -/
def firstNonBlank : List (List Char) → Option (List Char)
  | [] => none
  | l :: ls =>
    if pyStripList l ≠ [] then some ((pyStripList l).map Char.toLower)
    else firstNonBlank ls

/-- Scan the lines for a `License` heading followed by a non-blank line;
when a heading has no non-blank successor the outer `for` loop of the
source simply continues with the later lines (source lines 48-55). -/
def headingSearch : List (List Char) → Option (List Char)
  | [] => none
  | l :: ls =>
    if isLicenseHeading l then
      match firstNonBlank ls with
      | some v => some v
      | none => headingSearch ls
    else headingSearch ls

/-- Source lines 40-55: `extract_license` — YAML front matter first, then
a `## License` markdown heading; `None` when neither yields a value. -/
def extract_license (readme : String) : Option String :=
  match extractLicenseYaml true readme.toList with
  | some v => some (String.mk ((pyStripList v).map Char.toLower))
  | none =>
    match headingSearch (splitNl readme.toList) with
    | some v => some (String.mk v)
    | none => none

/-- Normalization of the declared token (source lines 77-78):
`license_str.lower().replace(" ", "").replace("-", "").replace("license", "")`. -/
def normalizeLicenseToken (lic : String) : String :=
  replaceAll "license" "" (replaceAll "-" "" (replaceAll " " "" (strLower lic)))

/-- Containment scan over the allow-list (source lines 80-83): an entry
matches when its normalization `comp.replace("-", "").replace(" ", "")`
occurs inside the normalized declared token. -/
def licenseTokenCompatible (lic : String) : Bool :=
  COMPATIBLE_LICENSES.any (fun comp =>
    strContains (normalizeLicenseToken lic)
      (replaceAll " " "" (replaceAll "-" "" comp)))

/-- Source lines 64-85: `license_sub_score` — 1 when a license is found and
passes the containment scan, 0 otherwise (latency output dropped: it is
wall-clock time, outside the embedded state). -/
def license_sub_score (model_id : String) (env : Env) : ℤ :=
  match env.readme model_id with
  | none => 0
  | some readme =>
    if readme = "" then 0
    else
      match extract_license readme with
      | none => 0
      | some lic =>
        if lic = "" then 0
        else if licenseTokenCompatible lic then 1 else 0

/-! ### `available_dataset_code_score.py` -/

/-- Extension alternation `(csv|json|jsonl|parquet|tsv|txt|zip|tar\.gz|tar\.bz2)`
shared by two dataset-link patterns. -/
def reDataExt : RE :=
  reAlts [reStr "csv", reStr "json", reStr "jsonl", reStr "parquet",
    reStr "tsv", reStr "txt", reStr "zip", reStr "tar.gz", reStr "tar.bz2"]

/-- Regex `https?://`. -/
def reHttp : RE :=
  RE.seq (reStr "http") (RE.seq (reOpt (reChar 's')) (reStr "://"))

/-- Heading regex `##?\s*w` for a given tail. -/
def reHeading (w : RE) : RE :=
  RE.seq (reChar '#') (RE.seq (reOpt (reChar '#')) (RE.seq (RE.star reSpace) w))

/-- Source lines 18-32: the `dataset_patterns` list of `detect_dataset_links`,
compiled pattern by pattern in source order. -/
def datasetLinkPatterns : List RE :=
  [ -- https?://[^\s]*\.(csv|json|jsonl|parquet|tsv|txt|zip|tar\.gz|tar\.bz2)
    RE.seq reHttp (RE.seq (RE.star reNotSpace) (RE.seq (reChar '.') reDataExt)),
    -- https?://[^\s]*(dataset|data)[^\s]*
    RE.seq reHttp (RE.seq (RE.star reNotSpace)
      (RE.seq (reAlts [reStr "dataset", reStr "data"]) (RE.star reNotSpace))),
    -- https?://[^\s]*(kaggle|huggingface\.co/datasets|zenodo|figshare|drive\.google\.com)
    RE.seq reHttp (RE.seq (RE.star reNotSpace)
      (reAlts [reStr "kaggle", reStr "huggingface.co/datasets",
        reStr "zenodo", reStr "figshare", reStr "drive.google.com"])),
    -- \[.*\]\([^)]*\.(csv|json|jsonl|parquet|tsv|txt|zip|tar\.gz|tar\.bz2)
    RE.seq (reChar '[') (RE.seq (RE.star reDot) (RE.seq (reChar ']')
      (RE.seq (reChar '(') (RE.seq (RE.star (RE.cls (fun c => c != ')')))
        (RE.seq (reChar '.') reDataExt))))),
    -- ##?\s*Dataset
    reHeading (reStr "dataset"),
    -- ##?\s*Data
    reHeading (reStr "data"),
    -- dataset[:\s]
    RE.seq (reStr "dataset") (RE.cls (fun c => c == ':' || isPySpace c)),
    -- training\s+data
    RE.seq (reStr "training") (RE.seq (rePlus reSpace) (reStr "data")),
    -- test\s+data
    RE.seq (reStr "test") (RE.seq (rePlus reSpace) (reStr "data")),
    -- validation\s+data
    RE.seq (reStr "validation") (RE.seq (rePlus reSpace) (reStr "data"))]

/-- Source lines 9-40: `detect_dataset_links` — any dataset pattern found in
the lowercased README (the IGNORECASE flag is absorbed by lowercasing). -/
def detect_dataset_links (readme_text : String) : Bool :=
  if readme_text = "" then false
  else
    let low := (strLower readme_text).toList
    datasetLinkPatterns.any (fun p => reSearch p low)

/-- Source lines 52-76: the non-`\b` entries of `code_patterns` of
`detect_code_examples`, compiled in source order. -/
def codeExampleRegexes : List RE :=
  [ -- ```[a-zA-Z]*\n.*\n```   (code blocks)
    RE.seq (reStr "```") (RE.seq (RE.star reAlpha) (RE.seq (reChar '\n')
      (RE.seq (RE.star reDot) (RE.seq (reChar '\n') (reStr "```"))))),
    -- ```[a-zA-Z]*\n.*        (incomplete code blocks)
    RE.seq (reStr "```") (RE.seq (RE.star reAlpha)
      (RE.seq (reChar '\n') (RE.star reDot))),
    -- ##?\s*Usage
    reHeading (reStr "usage"),
    -- ##?\s*Example
    reHeading (reStr "example"),
    -- ##?\s*Code
    reHeading (reStr "code"),
    -- ##?\s*Installation
    reHeading (reStr "installation"),
    -- ##?\s*Quick\s+start
    reHeading (RE.seq (reStr "quick") (RE.seq (rePlus reSpace) (reStr "start"))),
    -- pip\s+install
    RE.seq (reStr "pip") (RE.seq (rePlus reSpace) (reStr "install")),
    -- python\s+
    RE.seq (reStr "python") (rePlus reSpace),
    -- import\s+
    RE.seq (reStr "import") (rePlus reSpace),
    -- from\s+
    RE.seq (reStr "from") (rePlus reSpace),
    -- def\s+
    RE.seq (reStr "def") (rePlus reSpace),
    -- class\s+
    RE.seq (reStr "class") (rePlus reSpace),
    -- function\s*\(
    RE.seq (reStr "function") (RE.seq (RE.star reSpace) (reChar '(')),
    -- <code>
    reStr "<code>",
    -- <pre>
    reStr "<pre>"]

/-- The `\.ext\b` entries of `code_patterns` (Python, JavaScript, Java, C++,
C, shell, notebook files), handled by the end-boundary matcher. -/
def codeFileExtensionList : List String :=
  [".py", ".js", ".java", ".cpp", ".c", ".sh", ".ipynb"]

/-- Source lines 43-84: `detect_code_examples` — any code pattern found in
the lowercased README; the `or` over patterns is order-independent, so the
regex entries and the `\b`-bounded extension entries are scanned in two
groups. -/
def detect_code_examples (readme_text : String) : Bool :=
  if readme_text = "" then false
  else
    let low := (strLower readme_text).toList
    codeExampleRegexes.any (fun p => reSearch p low) ||
      codeFileExtensionList.any (fun w => searchStrEndBounded w low)

/-- Modelled from `urllib.parse.urlparse` (Python standard library, outside
this repository) restricted to the link shapes reaching it — no query,
fragment or params: `f"{parsed.netloc}{parsed.path}"` equals the part
after the first `://` when one occurs, else the whole link. -/
def urlparseNetlocPath (link : String) : String :=
  match afterFirst ("://".toList) link.toList with
  | some r => String.mk r
  | none => link

/-- Source lines 87-106: `extract_code_identifier` — GitHub links keep the
part after `github.com/`; anything else falls back to netloc+path with
slashes stripped (the `except` branch is unreachable: `urlparse` does not
raise on `str` input). -/
def extract_code_identifier (code_link : String) : String :=
  if code_link = "" then ""
  else if strContains code_link "github.com" then
    match splitOnList ("github.com/".toList) code_link.toList with
    | _ :: p1 :: _ => String.mk (pyStripChar '/' p1)
    | _ => String.mk (pyStripChar '/' (urlparseNetlocPath code_link).toList)
  else String.mk (pyStripChar '/' (urlparseNetlocPath code_link).toList)

/-- Source lines 109-128: `extract_dataset_identifier_code` — Hugging Face
dataset links keep the part after `/datasets/`; otherwise netloc+path. -/
def extract_dataset_identifier_code (dataset_link : String) : String :=
  if dataset_link = "" then ""
  else if strContains dataset_link "huggingface.co/datasets/" then
    match splitOnList ("/datasets/".toList) dataset_link.toList with
    | _ :: p1 :: _ => String.mk (pyStripChar '/' p1)
    | _ => String.mk (pyStripChar '/' (urlparseNetlocPath dataset_link).toList)
  else String.mk (pyStripChar '/' (urlparseNetlocPath dataset_link).toList)

/-- Two-tier reference test applied to one registered identifier (source
lines 144-157 and 162-175): verbatim containment, or at least two of the
`/ - _`-split tokens longer than three characters occurring in the text. -/
def knownResourceHit (readmeLower : List Char) (idStr : String) : Bool :=
  let il := strLower idStr
  hasSubList il.toList readmeLower ||
    (let parts := splitWsTokens
      ((replaceAll "_" " " (replaceAll "-" " " (replaceAll "/" " "
        il))).toList)
     decide (parts.length ≥ 2) &&
       decide (2 ≤ parts.countP (fun p =>
         decide (p.length > 3) && hasSubList p readmeLower)))

/-- Source lines 131-177: `check_readme_for_known_resources` — which of the
two registries the README references (the `for`/`break` loops are
existence scans, embedded as `any`). -/
def check_readme_for_known_resources (readme : String)
    (encounteredDatasets encounteredCode : List String) : Bool × Bool :=
  if readme = "" then (false, false)
  else
    let rl := (strLower readme).toList
    (encounteredDatasets.any (knownResourceHit rl),
     encounteredCode.any (knownResourceHit rl))

/-- Python `set.add` on the duplicate-free list embedding. -/
def setAdd (s : List String) (x : String) : List String :=
  if x ∈ s then s else s ++ [x]

/-- Source lines 180-270: `available_dataset_code_score`.  The Python
function mutates the two registry sets in place and returns
`(score, time)`; the embedding returns the score together with the two
updated registries (wall-clock latency dropped). -/
def available_dataset_code_score (model_id code_link dataset_link : String)
    (encounteredDatasets encounteredCode : List String) (env : Env) :
    ℚ × List String × List String :=
  if pyStrip model_id = "" then (0, encounteredDatasets, encounteredCode)
  else
    let hasExtDataset := dataset_link != "" && pyStrip dataset_link != ""
    let hasExtCode := code_link != "" && pyStrip code_link != ""
    let avail : Bool × Bool :=
      if !hasExtDataset || !hasExtCode then
        match env.readme (pyStrip model_id) with
        | none => (hasExtDataset, hasExtCode)
        | some readme =>
          if readme = "" then (hasExtDataset, hasExtCode)
          else
            let dAvail :=
              if !hasExtDataset then detect_dataset_links readme
              else hasExtDataset
            let cAvail :=
              if !hasExtCode then detect_code_examples readme
              else hasExtCode
            let known := check_readme_for_known_resources readme
              encounteredDatasets encounteredCode
            let dAvail := if !hasExtDataset && !dAvail then known.1 else dAvail
            let cAvail := if !hasExtCode && !cAvail then known.2 else cAvail
            (dAvail, cAvail)
      else (hasExtDataset, hasExtCode)
    let encounteredCode' :=
      if hasExtCode then
        let cid := extract_code_identifier code_link
        if cid != "" then setAdd encounteredCode cid else encounteredCode
      else encounteredCode
    let encounteredDatasets' :=
      if hasExtDataset then
        let did := extract_dataset_identifier_code dataset_link
        if did != "" then setAdd encounteredDatasets did
        else encounteredDatasets
      else encounteredDatasets
    let score : ℚ :=
      if avail.1 && avail.2 then 1
      else if avail.1 || avail.2 then 1/2
      else 0
    (score, encounteredDatasets', encounteredCode')

/-! ### `dataset_quality_sub_score.py` -/

/-- Source lines 86-90: `dataset_patterns` of `evaluate_dataset_documentation`
(word-bounded). -/
def docDatasetWords : List String :=
  ["dataset", "training data", "training set", "data set", "corpus",
   "collection", "specification"]

/-- Helper for patterns of the shape `\d+\s*w`. -/
def reNumThen (w : RE) : RE :=
  RE.seq (rePlus reDigit) (RE.seq (RE.star reSpace) w)

/-- Helper for the regex `ws?` (a literal word with optional plural `s`). -/
def reWordOptS (w : String) : RE :=
  RE.seq (reStr w) (reOpt (reChar 's'))

/-- Source lines 98-108: `size_patterns` of `evaluate_dataset_documentation`,
compiled in source order. -/
def docSizePatterns : List RE :=
  [ -- \d+\s*(gb|mb|kb|tb)
    reNumThen (reAlts [reStr "gb", reStr "mb", reStr "kb", reStr "tb"]),
    -- \d+\s*(gigabytes?|megabytes?|kilobytes?|terabytes?)
    reNumThen (reAlts [reWordOptS "gigabyte", reWordOptS "megabyte",
      reWordOptS "kilobyte", reWordOptS "terabyte"]),
    -- \d+\s*rows?
    reNumThen (reWordOptS "row"),
    -- \d+\s*samples?
    reNumThen (reWordOptS "sample"),
    -- \d+\s*examples?
    reNumThen (reWordOptS "example"),
    -- \d+\s*instances?
    reNumThen (reWordOptS "instance"),
    -- \d+\s*records?
    reNumThen (reWordOptS "record"),
    -- size[:\s]+\d+
    RE.seq (reStr "size") (RE.seq
      (rePlus (RE.cls (fun c => c == ':' || isPySpace c))) (rePlus reDigit)),
    -- contains?\s+\d+
    RE.seq (reWordOptS "contain") (RE.seq (rePlus reSpace) (rePlus reDigit))]

/-- Source lines 116-119: `format_keywords` (substring scan). -/
def docFormatKeywords : List String :=
  ["csv", "json", "jsonl", "parquet", "tsv", "txt", "hdf5", "feather",
   "format", "structure", "file format", "data format"]

/-- Source lines 124-127: `schema_patterns` (word-bounded). -/
def docSchemaWords : List String :=
  ["column", "field", "attribute", "feature", "schema", "metadata",
   "annotation", "label"]

/-- Source lines 135-138: `usage_keywords` (substring scan). -/
def docUsageKeywords : List String :=
  ["usage", "how to", "load", "download", "access", "install", "tutorial",
   "guide", "example", "quickstart", "getting started"]

/-- Source lines 68-142: `evaluate_dataset_documentation` — five independent
0.2 increments (dataset mention, size info, format, schema, usage), capped
at 1.0; absent or empty text scores 0. -/
def evaluate_dataset_documentation (readme_text : Option String) : ℚ :=
  match readme_text with
  | none => 0
  | some s =>
    if s = "" then 0
    else
      let low := strLower s
      let lowL := low.toList
      let a : ℚ :=
        if docDatasetWords.any (fun w => searchWordBounded w lowL)
        then 1/5 else 0
      let b : ℚ :=
        if docSizePatterns.any (fun p => reSearch p lowL) then 1/5 else 0
      let c : ℚ :=
        if docFormatKeywords.any (fun k => strContains low k) then 1/5 else 0
      let d : ℚ :=
        if docSchemaWords.any (fun w => searchWordBounded w lowL)
        then 1/5 else 0
      let e : ℚ :=
        if docUsageKeywords.any (fun k => strContains low k) then 1/5 else 0
      min 1 (a + b + c + d + e)

/-- Source lines 163-167: `license_keywords` of `evaluate_license_clarity`. -/
def clarityLicenseKeywords : List String :=
  ["license", "licence", "terms", "agreement", "permission", "copyright",
   "legal", "rights", "usage rights"]

/-- Source lines 171-175: `specific_licenses`. -/
def claritySpecificLicenses : List String :=
  ["mit", "apache", "gpl", "lgpl", "bsd", "cc0", "cc-by", "public domain",
   "open source", "free to use", "commercial use", "academic use",
   "creative commons", "attribution", "redistribution"]

/-- Source lines 183-186: `restriction_keywords`. -/
def clarityRestrictionKeywords : List String :=
  ["restriction", "limitation", "prohibited", "not allowed", "forbidden",
   "cannot", "must not", "restricted use"]

/-- Source lines 145-190: `evaluate_license_clarity` — 0.5 for a license
mention, 0.3 for a specific license type, 0.2 for restriction wording,
capped at 1.0. -/
def evaluate_license_clarity (readme_text : Option String) : ℚ :=
  match readme_text with
  | none => 0
  | some s =>
    if s = "" then 0
    else
      let low := strLower s
      let a : ℚ :=
        if clarityLicenseKeywords.any (fun k => strContains low k)
        then 1/2 else 0
      let b : ℚ :=
        if claritySpecificLicenses.any (fun k => strContains low k)
        then 3/10 else 0
      let c : ℚ :=
        if clarityRestrictionKeywords.any (fun k => strContains low k)
        then 1/5 else 0
      min 1 (a + b + c)

/-- Source lines 210-215: `privacy_keywords` of `evaluate_safety_privacy`. -/
def safetyPrivacyKeywords : List String :=
  ["privacy", "personal", "pii", "anonymized", "anonymised",
   "de-identified", "confidential", "sensitive", "data protection",
   "gdpr", "ccpa", "personal information", "private data", "data privacy"]

/-- Source lines 221-226: `safety_keywords`. -/
def safetySafetyKeywords : List String :=
  ["safety", "bias", "fairness", "ethical", "responsible", "harmful",
   "content warning", "disclaimer", "risks", "limitations", "toxicity",
   "hate speech", "inappropriate", "offensive content",
   "safety guidelines", "ethical considerations"]

/-- Source lines 232-235: `source_keywords`. -/
def safetySourceKeywords : List String :=
  ["source", "origin", "collected", "gathered", "obtained", "derived",
   "data source", "origin of data", "data collection", "data gathering"]

/-- Source lines 193-239: `evaluate_safety_privacy` — 0.4 privacy + 0.3
safety + 0.3 data source, capped at 1.0. -/
def evaluate_safety_privacy (readme_text : Option String) : ℚ :=
  match readme_text with
  | none => 0
  | some s =>
    if s = "" then 0
    else
      let low := strLower s
      let a : ℚ :=
        if safetyPrivacyKeywords.any (fun k => strContains low k)
        then 2/5 else 0
      let b : ℚ :=
        if safetySafetyKeywords.any (fun k => strContains low k)
        then 3/10 else 0
      let c : ℚ :=
        if safetySourceKeywords.any (fun k => strContains low k)
        then 3/10 else 0
      min 1 (a + b + c)

/-- Source lines 259-264: `quality_patterns` of `evaluate_curation_quality`
(word-bounded). -/
def curationQualityWords : List String :=
  ["quality", "curated", "verified", "validated", "checked", "reviewed",
   "filtered", "cleaned", "processed", "preprocessed", "standardized",
   "normalized"]

/-- Source lines 272-275: `version_keywords`. -/
def curationVersionKeywords : List String :=
  ["version", "v1", "v2", "v3", "update", "changelog", "release",
   "revision", "iteration", "edition", "dataset version"]

/-- Source lines 280-284: `stats_keywords`. -/
def curationStatsKeywords : List String :=
  ["accuracy", "precision", "recall", "f1", "bleu", "rouge", "metric",
   "statistic", "benchmark", "baseline", "performance", "evaluation",
   "assessment", "measurement"]

/-- Source lines 242-288: `evaluate_curation_quality` — 0.4 quality control
+ 0.3 version info + 0.3 statistics, capped at 1.0. -/
def evaluate_curation_quality (readme_text : Option String) : ℚ :=
  match readme_text with
  | none => 0
  | some s =>
    if s = "" then 0
    else
      let low := strLower s
      let lowL := low.toList
      let a : ℚ :=
        if curationQualityWords.any (fun w => searchWordBounded w lowL)
        then 2/5 else 0
      let b : ℚ :=
        if curationVersionKeywords.any (fun k => strContains low k)
        then 3/10 else 0
      let c : ℚ :=
        if curationStatsKeywords.any (fun k => strContains low k)
        then 3/10 else 0
      min 1 (a + b + c)

/-- Source lines 308-311: `code_keywords` of `evaluate_reproducibility`
(the source list repeats "repository"; the duplicate is kept). -/
def reproCodeKeywords : List String :=
  ["code", "github", "repository", "script", "notebook", "jupyter",
   "source code", "implementation", "codebase", "repository"]

/-- Source lines 316-320: `env_keywords`. -/
def reproEnvKeywords : List String :=
  ["environment", "requirements", "dependencies", "install", "setup",
   "docker", "conda", "pip", "package", "library", "framework",
   "configuration"]

/-- Source lines 325-329: `repro_keywords`. -/
def reproReproKeywords : List String :=
  ["reproduce", "reproducibility", "replicate", "replication", "recreate",
   "step by step", "instructions", "tutorial", "guide", "experiment",
   "reproduce results", "replication study"]

/-- Source lines 291-334: `evaluate_reproducibility` — 0.3 code + 0.3
environment + 0.4 reproduction instructions, capped at 1.0. -/
def evaluate_reproducibility (readme_text : Option String) : ℚ :=
  match readme_text with
  | none => 0
  | some s =>
    if s = "" then 0
    else
      let low := strLower s
      let a : ℚ :=
        if reproCodeKeywords.any (fun k => strContains low k) then 3/10 else 0
      let b : ℚ :=
        if reproEnvKeywords.any (fun k => strContains low k) then 3/10 else 0
      let c : ℚ :=
        if reproReproKeywords.any (fun k => strContains low k) then 2/5 else 0
      min 1 (a + b + c)

/-- Compiled from `re.search(r'(\d+\.?\d*)', ...)` of `_get_ai_score`
(source line 58): first maximal digit run, optionally followed by a dot
and more digits, parsed as a rational. -/
def digitsToNat (ds : List Char) : ℕ :=
  ds.foldl (fun n c => 10 * n + (c.toNat - ('0').toNat)) 0

/-- Value of an integer part and a fractional digit part. -/
def parseDecimalQ (intPart fracPart : List Char) : ℚ :=
  (digitsToNat intPart : ℚ) + (digitsToNat fracPart : ℚ) / 10 ^ fracPart.length

/-- First number in the string per the regex `(\d+\.?\d*)`. -/
def extractFirstNumber : List Char → Option ℚ
  | [] => none
  | c :: cs =>
    if c.isDigit then
      let ds := (c :: cs).takeWhile Char.isDigit
      let rest := (c :: cs).drop ds.length
      match rest with
      | '.' :: rest2 => some (parseDecimalQ ds (rest2.takeWhile Char.isDigit))
      | _ => some (parseDecimalQ ds [])
    else extractFirstNumber cs

/-- The three aspects `_get_ai_score` has prompts for (source lines 24-47). -/
def aiAspects : List String := ["documentation", "safety", "curation"]

/-- Source lines 8-65: `_get_ai_score` — ask the oracle, extract the first
number of the stripped response and clamp it into [0,1]; every failure
mode (unknown aspect, raised exception — `none` response — or a response
without a number) yields the sentinel 0.0. -/
def _get_ai_score (env : Env) (readme_text model_id aspect : String) : ℚ :=
  if aspect ∉ aiAspects then 0
  else
    match env.oracle readme_text model_id aspect with
    | none => 0
    | some response =>
      match extractFirstNumber (pyStrip response).toList with
      | none => 0
      | some q => min 1 (max 0 q)

/-- Source lines 388-420: `evaluate_dataset_documentation_hybrid` — blend
`deterministic * 0.7 + ai * 0.3` capped at 1.0, falling back to the
deterministic score when AI is off, text is absent/empty, or the AI score
is the 0.0 sentinel. -/
def evaluate_dataset_documentation_hybrid (env : Env)
    (readme_text : Option String) (model_id : String) (use_ai : Bool) : ℚ :=
  let d := evaluate_dataset_documentation readme_text
  match readme_text with
  | none => d
  | some r =>
    if !use_ai || r = "" then d
    else
      let ai := _get_ai_score env r model_id "documentation"
      if ai = 0 then d
      else min 1 (d * (7/10) + ai * (3/10))

/-- Source lines 423-455: `evaluate_safety_privacy_hybrid` — blend
`deterministic * 0.6 + ai * 0.4` capped at 1.0, same fallbacks. -/
def evaluate_safety_privacy_hybrid (env : Env)
    (readme_text : Option String) (model_id : String) (use_ai : Bool) : ℚ :=
  let d := evaluate_safety_privacy readme_text
  match readme_text with
  | none => d
  | some r =>
    if !use_ai || r = "" then d
    else
      let ai := _get_ai_score env r model_id "safety"
      if ai = 0 then d
      else min 1 (d * (3/5) + ai * (2/5))

/-- Source lines 458-490: `evaluate_curation_quality_hybrid` — blend
`deterministic * 0.65 + ai * 0.35` capped at 1.0, same fallbacks. -/
def evaluate_curation_quality_hybrid (env : Env)
    (readme_text : Option String) (model_id : String) (use_ai : Bool) : ℚ :=
  let d := evaluate_curation_quality readme_text
  match readme_text with
  | none => d
  | some r =>
    if !use_ai || r = "" then d
    else
      let ai := _get_ai_score env r model_id "curation"
      if ai = 0 then d
      else min 1 (d * (13/20) + ai * (7/20))

/-- Source lines 337-356: `extract_dataset_identifier` (the module's own
copy, textually identical to `extract_dataset_identifier_code`). -/
def extract_dataset_identifier (dataset_link : String) : String :=
  if dataset_link = "" then ""
  else if strContains dataset_link "huggingface.co/datasets/" then
    match splitOnList ("/datasets/".toList) dataset_link.toList with
    | _ :: p1 :: _ => String.mk (pyStripChar '/' p1)
    | _ => String.mk (pyStripChar '/' (urlparseNetlocPath dataset_link).toList)
  else String.mk (pyStripChar '/' (urlparseNetlocPath dataset_link).toList)

/-- Source lines 359-385: `check_readme_for_known_datasets` — does the
README reference any registered dataset, verbatim or by the two-token
fuzzy rule. -/
def check_readme_for_known_datasets (readme : String)
    (encounteredDatasets : List String) : Bool :=
  if readme = "" || encounteredDatasets = [] then false
  else encounteredDatasets.any (knownResourceHit (strLower readme).toList)

/-- Source lines 493-574: `dataset_quality_sub_score` — availability gate
(external link, or a README reference to a registered dataset), then the
equal-weighted combination of the five criteria; the Python function
mutates `encountered_datasets` in place, so the embedding returns the
updated registry (wall-clock latency dropped). -/
def dataset_quality_sub_score (model_id dataset_link : String)
    (encounteredDatasets : List String) (use_ai : Bool) (env : Env) :
    ℚ × List String :=
  let hasExtDataset := dataset_link != "" && pyStrip dataset_link != ""
  let datasetAvailable :=
    if !hasExtDataset then
      match env.readme model_id with
      | none => hasExtDataset
      | some r =>
        if r != "" && encounteredDatasets != [] then
          check_readme_for_known_datasets r encounteredDatasets
        else hasExtDataset
    else hasExtDataset
  if !datasetAvailable then (0, encounteredDatasets)
  else
    let enc' :=
      if hasExtDataset then
        let did := extract_dataset_identifier dataset_link
        if did != "" then setAdd encounteredDatasets did
        else encounteredDatasets
      else encounteredDatasets
    match env.readme model_id with
    | none => (0, enc')
    | some readme =>
      if readme = "" then (0, enc')
      else
        let doc := evaluate_dataset_documentation_hybrid env (some readme)
          model_id use_ai
        let lic := evaluate_license_clarity (some readme)
        let safety := evaluate_safety_privacy_hybrid env (some readme)
          model_id use_ai
        let curation := evaluate_curation_quality_hybrid env (some readme)
          model_id use_ai
        let repro := evaluate_reproducibility (some readme)
        (doc * (1/5) + lic * (1/5) + safety * (1/5) + curation * (1/5) +
          repro * (1/5), enc')

/-! ### `ramp_up_sub_score.py`, `performance_claims_sub_score.py`,
`bus_factor.py` -/

/-- Source `ramp_up_sub_score.py` lines 9-18 and
`performance_claims_sub_score.py` lines 8-17 (two identical copies):
sigmoid normalization capped at 1.0, zero for non-positive input. -/
noncomputable def normalize_sigmoid (value mid : ℤ) (steepness : ℝ) : ℝ :=
  if value ≤ 0 then 0
  else min 1 (1 / (1 + Real.exp (-steepness * ((value : ℝ) - (mid : ℝ)))))

/-- Source `ramp_up_sub_score.py` lines 21-57: `ramp_up_time_score` — up to
four signals (downloads sigmoid, likes sigmoid, README existence, coding
example in the README), summed and divided by 4. -/
noncomputable def ramp_up_time_score (model_id : String) (env : Env) : ℝ :=
  match env.modelInfo model_id with
  | none => 0
  | some info =>
    let s1 := normalize_sigmoid info.downloads 10000 0.0001
    let s2 := normalize_sigmoid info.likes 100 0.01
    let readmeBonus : ℝ :=
      match env.readme model_id with
      | none => 0
      | some readme =>
        if readme = "" then 0
        else if strContains readme "```" ||
            strContains (strLower readme) "example" then 2
        else 1
    (s1 + s2 + readmeBonus) / 4

/-- Source `performance_claims_sub_score.py` lines 20-45:
`performance_claims_sub_score` — downloads and likes sigmoids, summed and
divided by 2. -/
noncomputable def performance_claims_sub_score (model_id : String)
    (env : Env) : ℝ :=
  match env.modelInfo model_id with
  | none => 0
  | some info =>
    (normalize_sigmoid info.downloads 10000 0.0001 +
      normalize_sigmoid info.likes 50 0.01) / 2

/-- Source `bus_factor.py` lines 51-68: `bus_factor_score` returns the
TUPLE `(contributors, execution_time)` — not a bare count.  The count is
the `contributors` capability of `Env` (the scrape returns 0 on any
failure and only ever a positive match otherwise); the second component
is wall-clock time, outside the embedded state and modelled as 0 — only
its presence matters downstream, because the net-score calculator binds
the tuple without unpacking it. -/
noncomputable def bus_factor_score (model_id : String) (env : Env) :
    ℕ × ℝ :=
  (env.contributors model_id, 0)

/-! ### `size_score.py` -/

/-- Source lines 28-33: `MEMORY_BENCHMARKS`, a dict in insertion order. -/
def MEMORY_BENCHMARKS : List (String × ℚ) :=
  [("raspberry_pi", 1), ("jetson_nano", 2),
   ("desktop_gpu", 16), ("high_end_gpu", 24)]

/-- Tail `\s*unit` of the memory patterns: skip whitespace, then the unit
literal (the units start with a letter, so the greedy `\s*` needs no
backtracking). -/
def unitAfterWs (unit cs : List Char) : Option (List Char) :=
  let rest := cs.dropWhile isPySpace
  if startsWithList unit rest then some (rest.drop unit.length) else none

/-- Match `(\d+(?:\.\d+)?)\s*unit` at the head of the input: maximal digit
run, optional fractional part (dropped again if the unit then fails to
follow, as `re` backtracking would), returning the captured value and the
rest of the input past the match. -/
def numUnitHere (unit cs : List Char) : Option (ℚ × List Char) :=
  let ds := cs.takeWhile Char.isDigit
  if ds = [] then none
  else
    let rest := cs.drop ds.length
    let withFrac : Option (ℚ × List Char) :=
      match rest with
      | '.' :: rest2 =>
        let fs := rest2.takeWhile Char.isDigit
        if fs = [] then none
        else
          match unitAfterWs unit (rest2.drop fs.length) with
          | some rem => some (parseDecimalQ ds fs, rem)
          | none => none
      | _ => none
    match withFrac with
    | some v => some v
    | none =>
      match unitAfterWs unit rest with
      | some rem => some (parseDecimalQ ds [], rem)
      | none => none

/-- Python `re.findall` for `(\d+(?:\.\d+)?)\s*unit`: left-to-right,
non-overlapping, resuming after each match.  Fuel is initialised to the
input length; every step consumes at least one character. -/
def scanNumUnit (unit : List Char) : Nat → List Char → List ℚ
  | 0, _ => []
  | _ + 1, [] => []
  | fuel + 1, c :: cs =>
    match numUnitHere unit (c :: cs) with
    | some (q, rem) => q :: scanNumUnit unit fuel rem
    | none => scanNumUnit unit fuel cs

/-- Scan a lowered text for `(\d+(?:\.\d+)?)\s*unit` captures. -/
def scanNumUnitStr (unit : String) (lowText : List Char) : List ℚ :=
  scanNumUnit unit.toList lowText.length lowText

/-- Ascending insertion keeping one copy of equal values. -/
def insertSortedQ (x : ℚ) : List ℚ → List ℚ
  | [] => [x]
  | y :: ys =>
    if x < y then x :: y :: ys
    else if x = y then y :: ys
    else y :: insertSortedQ x ys

/-- Python `sorted(list(set(l)))` on rationals. -/
def dedupSortQ (l : List ℚ) : List ℚ :=
  l.foldl (fun acc x => insertSortedQ x acc) []

/-- Source lines 94-140: `extract_memory_sizes`.  Each of the eleven
`MEMORY_PATTERNS` captures a digit run followed by `\s*GB` (patterns 1-10
only add context around exactly that shape), and the final catch-all
pattern `(\d+(?:\.\d+)?)\s*GB` captures every such occurrence, so after
the closing `set()` deduplication the GB loop contributes precisely the
catch-all's captures; the embedding therefore scans once with the
catch-all.  The `UNIT_CONVERSION_PATTERNS` loop contributes MB/1024,
TB*1024, GiB and MiB/1024 values.  Every value is range-filtered to
[0.1, 10000] GB and the result is deduplicated and sorted ascending. -/
def extract_memory_sizes (readme_text : String) : List ℚ :=
  if readme_text = "" then []
  else
    let low := (strLower readme_text).toList
    let gb := scanNumUnitStr "gb" low
    let mb := (scanNumUnitStr "mb" low).map (fun x => x / 1024)
    let tb := (scanNumUnitStr "tb" low).map (fun x => x * 1024)
    let gib := scanNumUnitStr "gib" low
    let mib := (scanNumUnitStr "mib" low).map (fun x => x / 1024)
    dedupSortQ ((gb ++ mb ++ tb ++ gib ++ mib).filter
      (fun x => decide (1/10 ≤ x) && decide (x ≤ 10000)))

/-- Source lines 143-158: `find_smallest_model_size` — `min` of the list,
`None` when empty. -/
def find_smallest_model_size : List ℚ → Option ℚ
  | [] => none
  | x :: xs => some (xs.foldl min x)

/-- Source lines 161-182: `score_against_benchmark` — percentage of the
benchmark capacity: below 75% scores 1.0, below 100% scores 0.5,
otherwise 0.0. -/
def score_against_benchmark (model_size_gb benchmark_gb : ℚ) : ℚ :=
  let percentage := model_size_gb / benchmark_gb * 100
  if percentage < 75 then 1
  else if percentage < 100 then 1/2
  else 0

/-- Source lines 185-202: `calculate_size_scores` — one score per hardware
benchmark, in dict order. -/
def calculate_size_scores (model_size_gb : ℚ) : List (String × ℚ) :=
  MEMORY_BENCHMARKS.map
    (fun hw => (hw.1, score_against_benchmark model_size_gb hw.2))

/-! ### `net_score_calculator.py` -/

/-- Source `schema.py`: the `ProjectMetadata` record (score fields; the
wall-clock latency fields are not part of the embedded state). -/
structure ProjectMetadata where
  name : String
  category : String
  net_score : ℝ
  ramp_up_time : ℝ
  bus_factor : ℕ
  performance_claims : ℝ
  license : ℤ
  size_score : List (String × ℚ)
  dataset_and_code_score : ℚ
  dataset_quality : ℚ
  code_quality : ℚ

/-- A value of Python's dynamic numeric world as it occurs in the
net-score expression of `calculate_net_score`: each unpacked sub-score is
a float; `bus_factor` (source line 56, `bus_factor = bus_factor_score(
model_id)` with no unpacking) is the `(count, execution_time)` tuple
returned by `bus_factor_score`. -/
inductive PyVal where
  | float : ℝ → PyVal
  | pair : ℕ → ℝ → PyVal

/-- Python `*` as used in the weighted sum of source lines 85-94: float
times float multiplies; float times tuple raises `TypeError` (for a tuple
the `*` operator is sequence repetition and demands an integer
multiplier), modelled as `none`. -/
noncomputable def pyMul : PyVal → PyVal → Option PyVal
  | .float a, .float b => some (.float (a * b))
  | _, _ => none

/-- Python `+` as used in the weighted sum, with raised exceptions
(`none`) propagating; float plus float adds, and float plus tuple — which
never arises here, since every summand is a `pyMul` result — would also
raise `TypeError`. -/
noncomputable def pyAdd : Option PyVal → Option PyVal → Option PyVal
  | some (.float a), some (.float b) => some (.float (a + b))
  | _, _ => none

/-- Source `net_score_calculator.py` lines 25-123: `calculate_net_score` —
every sub-score is computed (each one catching its own network failures),
the not-yet-implemented size and code-quality aspects are fixed at the
0.5 default, and the weighted sum is formed with weights
0.05/0.2/0.2/0.05/0.15/0.15/0.1/0.1 exactly as on source lines 85-94,
left-associated as Python evaluates it.  Line 56 binds `bus_factor` to
the un-unpacked tuple returned by `bus_factor_score` (every other scorer
is unpacked), so the fourth summand `0.05 * bus_factor` multiplies a
float by a tuple and raises `TypeError`; the raised exception is the
`none` result.  The sub-score calls pass no hints and fresh empty
registries, as the source's default arguments do. -/
noncomputable def calculate_net_score (model_id : String) (env : Env) :
    Option ProjectMetadata :=
  let size_score : ℚ := 1/2
  let license_score := license_sub_score model_id env
  let ramp_up_score := ramp_up_time_score model_id env
  let bus_factor := bus_factor_score model_id env
  let dataset_code_score :=
    (available_dataset_code_score model_id "" "" [] [] env).1
  let dataset_quality := (dataset_quality_sub_score model_id "" [] true env).1
  let code_quality : ℚ := 1/2
  let performance_claims := performance_claims_sub_score model_id env
  let net_score : Option PyVal :=
    pyAdd (pyAdd (pyAdd (pyAdd (pyAdd (pyAdd (pyAdd
      (pyMul (.float 0.05) (.float (size_score : ℝ)))
      (pyMul (.float 0.2) (.float (license_score : ℝ))))
      (pyMul (.float 0.2) (.float ramp_up_score)))
      (pyMul (.float 0.05) (.pair bus_factor.1 bus_factor.2)))
      (pyMul (.float 0.15) (.float (dataset_code_score : ℝ))))
      (pyMul (.float 0.15) (.float (dataset_quality : ℝ))))
      (pyMul (.float 0.1) (.float (code_quality : ℝ))))
      (pyMul (.float 0.1) (.float performance_claims))
  match net_score with
  | some (.float n) =>
    -- unreachable: the bus-factor summand always raises; the count
    -- component stands in for the float-annotated report field here
    some ⟨model_id, "MODEL", n, ramp_up_score, bus_factor.1,
      performance_claims, license_score, [("raspberry_pi", size_score)],
      dataset_code_score, dataset_quality, code_quality⟩
  | _ => none

/-- An environment in which every network capability fails: both fetches
return `None`, the contributor scrape returns 0 and the oracle raises. -/
def allFailEnv : Env :=
  ⟨fun _ => none, fun _ => none, fun _ => 0, fun _ _ _ => none⟩

/-- Named abbreviation for the document-derived dataset availability of
`available_dataset_code_score` (source lines 224-239 with no external
dataset hint): link patterns detected in the fetched README, or a
known-registry reference; false when the fetch failed or the text is
empty. -/
def scanDatasetAvailable (model_id : String) (eD eC : List String)
    (env : Env) : Bool :=
  match env.readme (pyStrip model_id) with
  | none => false
  | some r =>
    if r = "" then false
    else detect_dataset_links r ||
      (check_readme_for_known_resources r eD eC).1

/-- Named abbreviation for the document-derived code availability of
`available_dataset_code_score` (source lines 224-241 with no external
code hint). -/
def scanCodeAvailable (model_id : String) (eD eC : List String)
    (env : Env) : Bool :=
  match env.readme (pyStrip model_id) with
  | none => false
  | some r =>
    if r = "" then false
    else detect_code_examples r ||
      (check_readme_for_known_resources r eD eC).2

/-! ### Claim theorems -/

/-- C3 counterexample: on the spec's own example link
`https://host.com/owner/name` the extractors return the netloc+path form
`host.com/owner/name`, not `owner/name` — only the dedicated hosts get
the `owner/name` treatment. -/
theorem extract_identifier_host_counterexample :
    extract_code_identifier "https://host.com/owner/name" ≠ "owner/name" ∧
    extract_dataset_identifier_code "https://host.com/owner/name" ≠
      "owner/name" := by
  decide

/-- C3 (corrected): identifier extraction — the empty link maps to the
empty identifier; a generic host link maps to netloc+path
(`host.com/owner/name`); the `owner/name` short form is produced exactly
for the dedicated hosting conventions, `github.com/owner/name` for code
and `huggingface.co/datasets/owner/name` for datasets. -/
theorem extract_identifier_spec :
    extract_code_identifier "" = "" ∧
    extract_dataset_identifier_code "" = "" ∧
    extract_code_identifier "https://github.com/owner/name" = "owner/name" ∧
    extract_dataset_identifier_code
      "https://huggingface.co/datasets/owner/name" = "owner/name" ∧
    extract_code_identifier "https://host.com/owner/name" =
      "host.com/owner/name" ∧
    extract_dataset_identifier_code "https://host.com/owner/name" =
      "host.com/owner/name" := by
  decide

/-- C9 (confirmed): license containment over-match — `lgpl-3.0` is not in
the allow-list, yet its normalization `lgpl3.0` contains `gpl3.0`, the
normalization of the allow-list entry `gpl-3.0`, so a document declaring
`license: lgpl-3.0` receives license score 1. -/
theorem license_containment_overmatch :
    "lgpl-3.0" ∉ COMPATIBLE_LICENSES ∧
    normalizeLicenseToken "lgpl-3.0" = "lgpl3.0" ∧
    replaceAll " " "" (replaceAll "-" "" "gpl-3.0") = "gpl3.0" ∧
    strContains "lgpl3.0" "gpl3.0" = true ∧
    licenseTokenCompatible "lgpl-3.0" = true ∧
    extract_license "---\nlicense: lgpl-3.0\n---\nbody" = some "lgpl-3.0" ∧
    license_sub_score "m"
      ⟨fun _ => some "---\nlicense: lgpl-3.0\n---\nbody",
       fun _ => none, fun _ => 0, fun _ _ _ => none⟩ = 1 := by
  decide

/-- Left fold of `min` is bounded by its initial value. -/
theorem foldl_min_le (xs : List ℚ) (x : ℚ) : xs.foldl min x ≤ x := by
  induction xs generalizing x with
  | nil => simp
  | cons y ys ih => exact le_trans (ih (min x y)) (min_le_left x y)

/-- Left fold of `min` returns its initial value or a list element. -/
theorem foldl_min_mem (xs : List ℚ) (x : ℚ) :
    xs.foldl min x = x ∨ xs.foldl min x ∈ xs := by
  induction xs generalizing x with
  | nil => exact Or.inl rfl
  | cons y ys ih =>
    rcases ih (min x y) with h | h
    · rcases min_choice x y with hm | hm
      · exact Or.inl (by rw [List.foldl_cons, h, hm])
      · exact Or.inr (by rw [List.foldl_cons, h, hm]; exact List.mem_cons_self y ys)
    · exact Or.inr (List.mem_cons_of_mem y h)

/-- Left fold of `min` is bounded by every list element. -/
theorem foldl_min_le_of_mem (xs : List ℚ) (x y : ℚ) (hy : y ∈ xs) :
    xs.foldl min x ≤ y := by
  induction xs generalizing x with
  | nil => cases hy
  | cons z zs ih =>
    rcases List.mem_cons.mp hy with h | h
    · subst h
      exact le_trans (foldl_min_le zs (min x y)) (min_le_right x y)
    · exact ih (min x z) h

/-- C7 (confirmed): size scoring rule — the per-benchmark score is 1.0
below 75% of capacity, 0.5 from 75% up to (excluding) 100%, and 0.0 at or
above 100%; the footprint used is the smallest extracted memory figure
(`find_smallest_model_size` returns a minimum of the extracted list); and
the text `"Model size: 7.2 GB"` scored against the 1/2/16/24 GB
benchmarks yields [0.0, 0.0, 1.0, 1.0]. -/
theorem size_scoring_rule :
    (∀ m b : ℚ,
      (m / b * 100 < 75 → score_against_benchmark m b = 1) ∧
      (75 ≤ m / b * 100 → m / b * 100 < 100 →
        score_against_benchmark m b = 1/2) ∧
      (100 ≤ m / b * 100 → score_against_benchmark m b = 0)) ∧
    (∀ l : List ℚ, l ≠ [] → ∃ s, find_smallest_model_size l = some s ∧
      s ∈ l ∧ ∀ x ∈ l, s ≤ x) ∧
    extract_memory_sizes "Model size: 7.2 GB" = [36/5] ∧
    calculate_size_scores (36/5) =
      [("raspberry_pi", 0), ("jetson_nano", 0),
       ("desktop_gpu", 1), ("high_end_gpu", 1)] := by
  refine ⟨?_, ?_, ?_, ?_⟩
  · intro m b
    refine ⟨fun h => ?_, fun h h2 => ?_, fun h => ?_⟩ <;>
      simp only [score_against_benchmark] <;> split_ifs <;>
      first | rfl | linarith
  · intro l hl
    match l with
    | x :: xs =>
      refine ⟨xs.foldl min x, rfl, ?_, ?_⟩
      · rcases foldl_min_mem xs x with h | h
        · rw [h]; exact List.mem_cons_self x xs
        · exact List.mem_cons_of_mem x h
      · intro y hy
        rcases List.mem_cons.mp hy with h | h
        · subst h; exact foldl_min_le xs y
        · exact foldl_min_le_of_mem xs x y h
  · simp +decide [extract_memory_sizes, scanNumUnitStr, scanNumUnit,
      numUnitHere, unitAfterWs, parseDecimalQ, digitsToNat, dedupSortQ,
      insertSortedQ]
    norm_num [insertSortedQ]
  · norm_num [calculate_size_scores, MEMORY_BENCHMARKS,
      score_against_benchmark]

/-- C7 witness: the scoring rule and the minimum-footprint selection
evaluated at concrete inputs. -/
theorem size_scoring_rule_witness :
    score_against_benchmark (36/5) 16 = 1 ∧
    score_against_benchmark (36/5) 2 = 0 ∧
    (∃ s, find_smallest_model_size [(36 : ℚ)/5] = some s ∧
      s ∈ [(36 : ℚ)/5] ∧ ∀ x ∈ [(36 : ℚ)/5], s ≤ x) := by
  obtain ⟨h1, h2, _, _⟩ := size_scoring_rule
  exact ⟨(h1 (36/5) 16).1 (by norm_num), (h1 (36/5) 2).2.2 (by norm_num),
    h2 [(36 : ℚ)/5] (by simp)⟩

/-- C1 (code_bug): the aggregation claim fails on the code as written —
`bus_factor_score` returns the tuple `(contributors, execution_time)`
(bus_factor.py line 68), `calculate_net_score` binds it without unpacking
(net_score_calculator.py line 56), and the weighted sum's term
`0.05 * bus_factor` multiplies a float by a tuple, raising `TypeError`
for every artifact id in every environment: the aggregator never returns
a report.  The claim itself states the intent — the calculator's own
comment "Bus factor doesn't return timing" (line 57) and the repository
tests, which mock `bus_factor_score` with a scalar, both assume the
scalar reading. -/
theorem calculate_net_score_always_raises :
    ∀ model_id env, calculate_net_score model_id env = none := by
  intro model_id env
  rfl

/-- C4 (code_bug): the weighted-sum expression on source lines 85-94 does
spell out the claimed weights — they sum to exactly 1, hence to 1.0
within 1e-9 — over the aspect values with the 0.5 defaults for size and
code quality, but evaluating it raises `TypeError` at the
`0.05 * bus_factor` term (float times the un-unpacked tuple), so at the
source's own example artifact id no `net_score` is ever produced. -/
theorem net_score_weighting_crash :
    (0.05 + 0.2 + 0.2 + 0.05 + 0.15 + 0.15 + 0.1 + 0.1 : ℝ) = 1 ∧
    |(0.05 + 0.2 + 0.2 + 0.05 + 0.15 + 0.15 + 0.1 + 0.1 : ℝ) - 1|
      ≤ 1e-9 ∧
    pyMul (PyVal.float 0.05)
      (PyVal.pair
        (bus_factor_score "microsoft/DialoGPT-medium" allFailEnv).1
        (bus_factor_score "microsoft/DialoGPT-medium" allFailEnv).2)
      = none ∧
    calculate_net_score "microsoft/DialoGPT-medium" allFailEnv = none := by
  exact ⟨by norm_num, by norm_num, rfl, rfl⟩

/-- A `min 1` of a non-negative rational lies in [0,1]. -/
theorem minOne_nonneg_le (x : ℚ) (hx : 0 ≤ x) :
    0 ≤ min 1 x ∧ min 1 x ≤ 1 :=
  ⟨le_min (by norm_num) hx, min_le_left 1 x⟩

/-- A keyword bonus (`if found then a else 0`) is non-negative. -/
theorem ite_bonus_nonneg (c : Prop) [hdec : Decidable c] (a : ℚ)
    (ha : 0 ≤ a) : 0 ≤ if c then a else 0 := by
  split_ifs
  · exact ha
  · exact le_refl 0

/-- Bounds for `evaluate_dataset_documentation`. -/
theorem evaluate_dataset_documentation_bounds (t : Option String) :
    0 ≤ evaluate_dataset_documentation t ∧
      evaluate_dataset_documentation t ≤ 1 := by
  rcases t with _ | s
  · refine ⟨le_refl 0, ?_⟩
    norm_num [evaluate_dataset_documentation, evaluate_license_clarity,
      evaluate_safety_privacy, evaluate_curation_quality,
      evaluate_reproducibility]
  · by_cases h : s = ""
    · norm_num [evaluate_dataset_documentation, h]
    · unfold evaluate_dataset_documentation
      dsimp only
      rw [if_neg h]
      apply minOne_nonneg_le
      repeat' apply add_nonneg
      all_goals exact ite_bonus_nonneg _ _ (by norm_num)

/-- Bounds for `evaluate_license_clarity`. -/
theorem evaluate_license_clarity_bounds (t : Option String) :
    0 ≤ evaluate_license_clarity t ∧ evaluate_license_clarity t ≤ 1 := by
  rcases t with _ | s
  · refine ⟨le_refl 0, ?_⟩
    norm_num [evaluate_dataset_documentation, evaluate_license_clarity,
      evaluate_safety_privacy, evaluate_curation_quality,
      evaluate_reproducibility]
  · by_cases h : s = ""
    · norm_num [evaluate_license_clarity, h]
    · unfold evaluate_license_clarity
      dsimp only
      rw [if_neg h]
      apply minOne_nonneg_le
      repeat' apply add_nonneg
      all_goals exact ite_bonus_nonneg _ _ (by norm_num)

/-- Bounds for `evaluate_safety_privacy`. -/
theorem evaluate_safety_privacy_bounds (t : Option String) :
    0 ≤ evaluate_safety_privacy t ∧ evaluate_safety_privacy t ≤ 1 := by
  rcases t with _ | s
  · refine ⟨le_refl 0, ?_⟩
    norm_num [evaluate_dataset_documentation, evaluate_license_clarity,
      evaluate_safety_privacy, evaluate_curation_quality,
      evaluate_reproducibility]
  · by_cases h : s = ""
    · norm_num [evaluate_safety_privacy, h]
    · unfold evaluate_safety_privacy
      dsimp only
      rw [if_neg h]
      apply minOne_nonneg_le
      repeat' apply add_nonneg
      all_goals exact ite_bonus_nonneg _ _ (by norm_num)

/-- Bounds for `evaluate_curation_quality`. -/
theorem evaluate_curation_quality_bounds (t : Option String) :
    0 ≤ evaluate_curation_quality t ∧ evaluate_curation_quality t ≤ 1 := by
  rcases t with _ | s
  · refine ⟨le_refl 0, ?_⟩
    norm_num [evaluate_dataset_documentation, evaluate_license_clarity,
      evaluate_safety_privacy, evaluate_curation_quality,
      evaluate_reproducibility]
  · by_cases h : s = ""
    · norm_num [evaluate_curation_quality, h]
    · unfold evaluate_curation_quality
      dsimp only
      rw [if_neg h]
      apply minOne_nonneg_le
      repeat' apply add_nonneg
      all_goals exact ite_bonus_nonneg _ _ (by norm_num)

/-- Bounds for `evaluate_reproducibility`. -/
theorem evaluate_reproducibility_bounds (t : Option String) :
    0 ≤ evaluate_reproducibility t ∧ evaluate_reproducibility t ≤ 1 := by
  rcases t with _ | s
  · refine ⟨le_refl 0, ?_⟩
    norm_num [evaluate_dataset_documentation, evaluate_license_clarity,
      evaluate_safety_privacy, evaluate_curation_quality,
      evaluate_reproducibility]
  · by_cases h : s = ""
    · norm_num [evaluate_reproducibility, h]
    · unfold evaluate_reproducibility
      dsimp only
      rw [if_neg h]
      apply minOne_nonneg_le
      repeat' apply add_nonneg
      all_goals exact ite_bonus_nonneg _ _ (by norm_num)

/-- The sigmoid normalization lies in [0,1]. -/
theorem normalize_sigmoid_bounds (v m : ℤ) (s : ℝ) :
    0 ≤ normalize_sigmoid v m s ∧ normalize_sigmoid v m s ≤ 1 := by
  unfold normalize_sigmoid
  split_ifs with h
  · norm_num
  · refine ⟨le_min (by norm_num) ?_, min_le_left 1 _⟩
    positivity

/-- Bounds for `ramp_up_time_score`. -/
theorem ramp_up_time_score_bounds (m : String) (env : Env) :
    0 ≤ ramp_up_time_score m env ∧ ramp_up_time_score m env ≤ 1 := by
  unfold ramp_up_time_score
  cases hm : env.modelInfo m with
  | none => norm_num
  | some info =>
    obtain ⟨h1a, h1b⟩ := normalize_sigmoid_bounds info.downloads 10000 0.0001
    obtain ⟨h2a, h2b⟩ := normalize_sigmoid_bounds info.likes 100 0.01
    dsimp only
    cases hr : env.readme m with
    | none =>
      constructor
      · apply div_nonneg _ (by norm_num); linarith
      · rw [div_le_one (by norm_num)]; linarith
    | some r =>
      dsimp only
      split_ifs <;> constructor <;>
        first
          | (apply div_nonneg _ (by norm_num); linarith)
          | (rw [div_le_one (by norm_num)]; linarith)

/-- Bounds for `performance_claims_sub_score`. -/
theorem performance_claims_sub_score_bounds (m : String) (env : Env) :
    0 ≤ performance_claims_sub_score m env ∧
      performance_claims_sub_score m env ≤ 1 := by
  unfold performance_claims_sub_score
  cases hm : env.modelInfo m with
  | none => norm_num
  | some info =>
    obtain ⟨h1a, h1b⟩ := normalize_sigmoid_bounds info.downloads 10000 0.0001
    obtain ⟨h2a, h2b⟩ := normalize_sigmoid_bounds info.likes 50 0.01
    dsimp only
    constructor
    · apply div_nonneg _ (by norm_num); linarith
    · rw [div_le_one (by norm_num)]; linarith

/-- The final if-chain of the availability score only produces 0, 1/2, 1. -/
theorem score_chain_cases (a b : Bool) :
    (if a && b then (1 : ℚ) else if a || b then 1/2 else 0) = 0 ∨
    (if a && b then (1 : ℚ) else if a || b then 1/2 else 0) = 1/2 ∨
    (if a && b then (1 : ℚ) else if a || b then 1/2 else 0) = 1 := by
  cases a <;> cases b <;> simp

/-- The availability score is one of 0, 1/2, 1. -/
theorem available_score_cases (m c d : String) (eD eC : List String)
    (env : Env) :
    (available_dataset_code_score m c d eD eC env).1 = 0 ∨
    (available_dataset_code_score m c d eD eC env).1 = 1/2 ∨
    (available_dataset_code_score m c d eD eC env).1 = 1 := by
  unfold available_dataset_code_score
  by_cases h : pyStrip m = ""
  · rw [if_pos h]; exact Or.inl rfl
  · rw [if_neg h]
    dsimp only
    exact score_chain_cases _ _

/-- C5 (confirmed): bounds — every heuristic evaluator (the five
dataset-quality sub-evaluators, the ramp-up score, the performance-claims
score and the dataset-and-code availability score) returns a value in
[0,1] for every input, and an absent document yields 0.0 rather than an
error: the five evaluators return 0 on `None`, the ramp-up and
performance-claims scores return 0 when the metadata fetch fails, and the
availability score returns 0 when no hints are given and the document
fetch fails. -/
theorem heuristic_evaluator_bounds :
    (∀ t, 0 ≤ evaluate_dataset_documentation t ∧
      evaluate_dataset_documentation t ≤ 1) ∧
    (∀ t, 0 ≤ evaluate_license_clarity t ∧ evaluate_license_clarity t ≤ 1) ∧
    (∀ t, 0 ≤ evaluate_safety_privacy t ∧ evaluate_safety_privacy t ≤ 1) ∧
    (∀ t, 0 ≤ evaluate_curation_quality t ∧
      evaluate_curation_quality t ≤ 1) ∧
    (∀ t, 0 ≤ evaluate_reproducibility t ∧
      evaluate_reproducibility t ≤ 1) ∧
    (∀ m env, 0 ≤ ramp_up_time_score m env ∧
      ramp_up_time_score m env ≤ 1) ∧
    (∀ m env, 0 ≤ performance_claims_sub_score m env ∧
      performance_claims_sub_score m env ≤ 1) ∧
    (∀ m c d eD eC env,
      0 ≤ (available_dataset_code_score m c d eD eC env).1 ∧
      (available_dataset_code_score m c d eD eC env).1 ≤ 1) ∧
    (evaluate_dataset_documentation none = 0 ∧
     evaluate_license_clarity none = 0 ∧
     evaluate_safety_privacy none = 0 ∧
     evaluate_curation_quality none = 0 ∧
     evaluate_reproducibility none = 0) ∧
    (∀ m, ramp_up_time_score m allFailEnv = 0 ∧
      performance_claims_sub_score m allFailEnv = 0) ∧
    (∀ m eD eC,
      (available_dataset_code_score m "" "" eD eC allFailEnv).1 = 0) := by
  refine ⟨evaluate_dataset_documentation_bounds,
    evaluate_license_clarity_bounds, evaluate_safety_privacy_bounds,
    evaluate_curation_quality_bounds, evaluate_reproducibility_bounds,
    ramp_up_time_score_bounds, performance_claims_sub_score_bounds,
    ?_, ⟨rfl, rfl, rfl, rfl, rfl⟩, fun m => ⟨rfl, rfl⟩, ?_⟩
  · intro m c d eD eC env
    rcases available_score_cases m c d eD eC env with h | h | h <;>
      rw [h] <;> norm_num
  · intro m eD eC
    by_cases h : pyStrip m = "" <;>
      simp +decide [available_dataset_code_score, h, allFailEnv]

/-- C6 (confirmed): oracle blend fallback and formula — a failed oracle
call yields the 0.0 sentinel; whenever the AI score is the sentinel each
hybrid evaluator returns the deterministic score unchanged (and an absent
document never consults the oracle at all); otherwise the hybrid score is
`deterministic * (1 - w) + opinion * w` capped at 1.0 with the fixed
per-aspect weights w = 0.3 (documentation), 0.4 (safety), 0.35
(curation). -/
theorem oracle_blend_fallback_formula (env : Env) (r model_id : String)
    (hr : r ≠ "") :
    (∀ aspect, env.oracle r model_id aspect = none →
      _get_ai_score env r model_id aspect = 0) ∧
    (_get_ai_score env r model_id "documentation" = 0 →
      evaluate_dataset_documentation_hybrid env (some r) model_id true =
        evaluate_dataset_documentation (some r)) ∧
    (_get_ai_score env r model_id "documentation" ≠ 0 →
      evaluate_dataset_documentation_hybrid env (some r) model_id true =
        min 1 (evaluate_dataset_documentation (some r) * (1 - 3/10) +
          _get_ai_score env r model_id "documentation" * (3/10))) ∧
    (_get_ai_score env r model_id "safety" = 0 →
      evaluate_safety_privacy_hybrid env (some r) model_id true =
        evaluate_safety_privacy (some r)) ∧
    (_get_ai_score env r model_id "safety" ≠ 0 →
      evaluate_safety_privacy_hybrid env (some r) model_id true =
        min 1 (evaluate_safety_privacy (some r) * (1 - 2/5) +
          _get_ai_score env r model_id "safety" * (2/5))) ∧
    (_get_ai_score env r model_id "curation" = 0 →
      evaluate_curation_quality_hybrid env (some r) model_id true =
        evaluate_curation_quality (some r)) ∧
    (_get_ai_score env r model_id "curation" ≠ 0 →
      evaluate_curation_quality_hybrid env (some r) model_id true =
        min 1 (evaluate_curation_quality (some r) * (1 - 7/20) +
          _get_ai_score env r model_id "curation" * (7/20))) ∧
    (∀ use_ai,
      evaluate_dataset_documentation_hybrid env none model_id use_ai =
        evaluate_dataset_documentation none ∧
      evaluate_safety_privacy_hybrid env none model_id use_ai =
        evaluate_safety_privacy none ∧
      evaluate_curation_quality_hybrid env none model_id use_ai =
        evaluate_curation_quality none) := by
  refine ⟨?_, ?_, ?_, ?_, ?_, ?_, ?_, fun _ => ⟨rfl, rfl, rfl⟩⟩
  · intro aspect hnone
    simp [_get_ai_score, hnone]
  · intro h0
    unfold evaluate_dataset_documentation_hybrid
    dsimp only
    rw [if_neg (by simp [hr]), if_pos h0]
  · intro hne
    unfold evaluate_dataset_documentation_hybrid
    dsimp only
    rw [if_neg (by simp [hr]), if_neg hne]
    norm_num
  · intro h0
    unfold evaluate_safety_privacy_hybrid
    dsimp only
    rw [if_neg (by simp [hr]), if_pos h0]
  · intro hne
    unfold evaluate_safety_privacy_hybrid
    dsimp only
    rw [if_neg (by simp [hr]), if_neg hne]
    norm_num
  · intro h0
    unfold evaluate_curation_quality_hybrid
    dsimp only
    rw [if_neg (by simp [hr]), if_pos h0]
  · intro hne
    unfold evaluate_curation_quality_hybrid
    dsimp only
    rw [if_neg (by simp [hr]), if_neg hne]
    norm_num

/-- C6 witness: with a failing oracle the documentation hybrid equals the
deterministic score; with an oracle answering "0.75" it equals the 0.7/0.3
blend of the deterministic score with 3/4. -/
theorem oracle_blend_fallback_formula_witness :
    evaluate_dataset_documentation_hybrid allFailEnv (some "a dataset")
      "m" true = evaluate_dataset_documentation (some "a dataset") ∧
    evaluate_dataset_documentation_hybrid
      ⟨fun _ => none, fun _ => none, fun _ => 0, fun _ _ _ => some "0.75"⟩
      (some "a dataset") "m" true =
      min 1 (evaluate_dataset_documentation (some "a dataset") * (1 - 3/10)
        + (3/4) * (3/10)) := by
  constructor
  · exact (oracle_blend_fallback_formula allFailEnv "a dataset" "m"
      (by decide)).2.1 rfl
  · have hai : _get_ai_score
        ⟨fun _ => none, fun _ => none, fun _ => 0, fun _ _ _ => some "0.75"⟩
        "a dataset" "m" "documentation" = 3/4 := by
      simp +decide [_get_ai_score, extractFirstNumber, parseDecimalQ,
        digitsToNat, aiAspects, pyStrip, pyStripList]
      norm_num
    have h := (oracle_blend_fallback_formula
      ⟨fun _ => none, fun _ => none, fun _ => 0, fun _ _ _ => some "0.75"⟩
      "a dataset" "m" (by decide)).2.2.1
      (by rw [hai]; norm_num)
    rw [h, hai]

/-- C8 (confirmed): dataset-quality availability gate — with no external
dataset link (empty or whitespace-only) and a fetched document that does
not reference any registered dataset identifier,
`dataset_quality_sub_score` returns exactly 0.0, regardless of the
document's own dataset-documentation, license, safety, curation or
reproducibility content: the five sub-evaluators are only consulted after
a dataset is deemed available. -/
theorem dataset_quality_availability_gate (model_id dataset_link : String)
    (enc : List String) (use_ai : Bool) (env : Env)
    (hlink : pyStrip dataset_link = "")
    (href : ∀ r, env.readme model_id = some r →
      check_readme_for_known_datasets r enc = false) :
    (dataset_quality_sub_score model_id dataset_link enc use_ai env).1
      = 0 := by
  have hext : (dataset_link != "" && pyStrip dataset_link != "") = false := by
    rw [hlink]; simp
  unfold dataset_quality_sub_score
  rw [hext]
  dsimp only
  cases hrm : env.readme model_id with
  | none => simp
  | some r =>
    by_cases hcond : (r != "" && enc != []) = true
    · simp [hcond, href r hrm]
    · simp [hcond]

/-- C8 witness: a document rich in dataset-quality keywords but with no
external link and no reference to the registered dataset identifier still
scores 0. -/
theorem dataset_quality_availability_gate_witness :
    (dataset_quality_sub_score "m" ""
      ["someds/bigcorpus"] true
      ⟨fun _ => some "dataset csv license quality reproduce pip guide",
       fun _ => none, fun _ => 0, fun _ _ _ => none⟩).1 = 0 := by
  apply dataset_quality_availability_gate
  · decide
  · intro r hr
    rw [← Option.some.inj hr]
    decide

/-- C10 (confirmed): registry mutation frame — a call to
`available_dataset_code_score` changes each registry at most by adding
the identifier extracted from the corresponding explicitly supplied hint
link, and when both hint links are absent or blank, both registries are
returned exactly unchanged: document scanning and fuzzy reference
matching never add entries. -/
theorem registry_mutation_frame (m c d : String) (eD eC : List String)
    (env : Env) :
    ((available_dataset_code_score m c d eD eC env).2.1 = eD ∨
     (available_dataset_code_score m c d eD eC env).2.1 =
       setAdd eD (extract_dataset_identifier_code d)) ∧
    ((available_dataset_code_score m c d eD eC env).2.2 = eC ∨
     (available_dataset_code_score m c d eD eC env).2.2 =
       setAdd eC (extract_code_identifier c)) ∧
    (pyStrip c = "" → pyStrip d = "" →
      (available_dataset_code_score m c d eD eC env).2.1 = eD ∧
      (available_dataset_code_score m c d eD eC env).2.2 = eC) := by
  by_cases h : pyStrip m = ""
  · unfold available_dataset_code_score
    rw [if_pos h]
    exact ⟨Or.inl rfl, Or.inl rfl, fun _ _ => ⟨rfl, rfl⟩⟩
  · refine ⟨?_, ?_, ?_⟩
    · unfold available_dataset_code_score
      rw [if_neg h]
      dsimp only
      split_ifs <;> first | exact Or.inl rfl | exact Or.inr rfl
    · unfold available_dataset_code_score
      rw [if_neg h]
      dsimp only
      split_ifs <;> first | exact Or.inl rfl | exact Or.inr rfl
    · intro hc hd
      have hextd : (d != "" && pyStrip d != "") = false := by
        rw [hd]; simp
      have hextc : (c != "" && pyStrip c != "") = false := by
        rw [hc]; simp
      unfold available_dataset_code_score
      rw [if_neg h]
      dsimp only
      rw [hextd, hextc]
      simp

/-- C10 witness: with a whitespace-only code hint and an empty dataset
hint, both registries come back exactly unchanged. -/
theorem registry_mutation_frame_witness :
    (available_dataset_code_score "m" " " "" ["x"] ["y"]
      allFailEnv).2.1 = ["x"] ∧
    (available_dataset_code_score "m" " " "" ["x"] ["y"]
      allFailEnv).2.2 = ["y"] :=
  (registry_mutation_frame "m" " " "" ["x"] ["y"] allFailEnv).2.2
    (by decide) (by decide)

/-- C2 counterexample: with exactly one hint supplied (a code link) and a
document whose text contains a dataset heading, the availability score is
1.0, not the 0.5 the claim's second tier demands — the scorer still scans
the document for the missing resource. -/
theorem availability_one_hint_counterexample :
    (available_dataset_code_score "m" "https://github.com/a/b" "" [] []
      ⟨fun _ => some "## Dataset", fun _ => none, fun _ => 0,
       fun _ _ _ => none⟩).1 = 1 ∧
    (available_dataset_code_score "m" "https://github.com/a/b" "" [] []
      ⟨fun _ => some "## Dataset", fun _ => none, fun _ => 0,
       fun _ _ _ => none⟩).1 ≠ 1/2 := by
  have h : (available_dataset_code_score "m" "https://github.com/a/b" ""
      [] [] ⟨fun _ => some "## Dataset", fun _ => none, fun _ => 0,
      fun _ _ _ => none⟩).1 = 1 := by
    simp +decide [available_dataset_code_score]
  exact ⟨h, by rw [h]; norm_num⟩

/-- C2 (corrected): hint tiers of the availability score, for artifacts
with a non-blank id — both hints: 1.0 without consulting the document;
exactly one hint: the supplied resource counts as available and the
document is still scanned for the other resource, so the score is 1.0
when that scan succeeds and 0.5 otherwise; no hints: 1.0 / 0.5 / 0.0
according to how many of the two resources the document scan finds. -/
theorem availability_hint_tiers (m c d : String) (eD eC : List String)
    (env : Env) (hm : pyStrip m ≠ "") :
    ((d != "" && pyStrip d != "") = true →
      (c != "" && pyStrip c != "") = true →
      (available_dataset_code_score m c d eD eC env).1 = 1) ∧
    ((c != "" && pyStrip c != "") = true →
      (d != "" && pyStrip d != "") = false →
      (available_dataset_code_score m c d eD eC env).1 =
        if scanDatasetAvailable m eD eC env then 1 else 1/2) ∧
    ((d != "" && pyStrip d != "") = true →
      (c != "" && pyStrip c != "") = false →
      (available_dataset_code_score m c d eD eC env).1 =
        if scanCodeAvailable m eD eC env then 1 else 1/2) ∧
    ((d != "" && pyStrip d != "") = false →
      (c != "" && pyStrip c != "") = false →
      (available_dataset_code_score m c d eD eC env).1 =
        if scanDatasetAvailable m eD eC env &&
            scanCodeAvailable m eD eC env then 1
        else if scanDatasetAvailable m eD eC env ||
            scanCodeAvailable m eD eC env then 1/2
        else 0) := by
  refine ⟨?_, ?_, ?_, ?_⟩
  · intro hd hc
    unfold available_dataset_code_score
    rw [if_neg hm]
    dsimp only
    rw [hd, hc]
    simp
  · intro hc hd
    unfold available_dataset_code_score scanDatasetAvailable
    rw [if_neg hm]
    dsimp only
    rw [hd, hc]
    cases hrm : env.readme (pyStrip m) with
    | none => simp
    | some r =>
      by_cases hre : r = ""
      · simp [hre]
      · cases hdet : detect_dataset_links r <;>
          cases hk : (check_readme_for_known_resources r eD eC).1 <;>
          simp [hre, hdet, hk]
  · intro hd hc
    unfold available_dataset_code_score scanCodeAvailable
    rw [if_neg hm]
    dsimp only
    rw [hd, hc]
    cases hrm : env.readme (pyStrip m) with
    | none => simp
    | some r =>
      by_cases hre : r = ""
      · simp [hre]
      · cases hdet : detect_code_examples r <;>
          cases hk : (check_readme_for_known_resources r eD eC).2 <;>
          simp [hre, hdet, hk]
  · intro hd hc
    unfold available_dataset_code_score scanDatasetAvailable
      scanCodeAvailable
    rw [if_neg hm]
    dsimp only
    rw [hd, hc]
    cases hrm : env.readme (pyStrip m) with
    | none => simp
    | some r =>
      by_cases hre : r = ""
      · simp [hre]
      · cases hdet : detect_dataset_links r <;>
          cases hdet2 : detect_code_examples r <;>
          cases hk : (check_readme_for_known_resources r eD eC).1 <;>
          cases hk2 : (check_readme_for_known_resources r eD eC).2 <;>
          simp [hre, hdet, hdet2, hk, hk2]

/-- C2 witness: with only a code hint and a failing document fetch the
score is 0.5; with both hints it is 1.0. -/
theorem availability_hint_tiers_witness :
    (available_dataset_code_score "m" "x" "" [] [] allFailEnv).1 = 1/2 ∧
    (available_dataset_code_score "m" "x" "y" [] [] allFailEnv).1 = 1 := by
  constructor
  · have h := (availability_hint_tiers "m" "x" "" [] [] allFailEnv
      (by decide)).2.1 (by decide) (by decide)
    rw [h]
    simp [scanDatasetAvailable, allFailEnv]
  · exact (availability_hint_tiers "m" "x" "y" [] [] allFailEnv
      (by decide)).1 (by decide) (by decide)
